import Mathlib

/-!
Verification development for the health-check HTTP server in
src/apps/api/server.py.  The handler class extends the Python class
BaseHTTPRequestHandler, so the observable behaviour is the combination of
the 29 lines in server.py and the request dispatch of the standard
http.server module (CPython 3.11): the parts of that dispatch reachable
from this program (method routing, send_error for unsupported methods,
send_response adding Server and Date headers, logging hooks) are embedded
here as well, faithfully to the CPython source.

The embedding is parametric in the two pieces of ambient state the
response bytes depend on: the interpreter version string (part of the
Server header) and the current time in seconds since the Unix epoch
(the Date header).  Request bodies, HTTP/0.9 two-word request lines and
transport-level parse failures are outside the model: a request here is a
method and a request target that the transport layer parsed successfully
from an HTTP/1.x request line.
-/

/-- Decimal string of a natural number, as Python str of an int produces. -/
def natStr (n : Nat) : String := toString n

/-- Python string.whitespace test used by int() for stripping (ASCII part). -/
def py_space (c : Char) : Bool :=
  c == ' ' || c == '\t' || c == '\n' || c == '\r' || c == '\x0b' || c == '\x0c'

/-- Value of a digit run after the first digit, allowing single underscores
between digits as Python int() does ("1_0" parses, "1__0" and "1_" do not). -/
def py_digits_val (acc : Nat) : List Char → Option Nat
  | [] => some acc
  | c :: rest =>
    if c.isDigit then py_digits_val (10 * acc + (c.toNat - 48)) rest
    else if c = '_' then
      match rest with
      | d :: rest2 =>
        if d.isDigit then py_digits_val (10 * acc + (d.toNat - 48)) rest2 else none
      | [] => none
    else none

/-- Value of a nonempty digit run; the first character must be a digit. -/
def py_digits : List Char → Option Nat
  | [] => none
  | c :: rest => if c.isDigit then py_digits_val (c.toNat - 48) rest else none

/-- Python int(s) on a decimal string: surrounding whitespace stripped, an
optional sign, then a nonempty digit run; none models the ValueError. -/
def python_int (s : String) : Option Int :=
  let t := ((s.data.dropWhile py_space).reverse.dropWhile py_space).reverse
  match t with
  | [] => none
  | c :: rest =>
    if c = '+' then (py_digits rest).map (fun n => (n : Int))
    else if c = '-' then (py_digits rest).map (fun n => -(n : Int))
    else (py_digits (c :: rest)).map (fun n => (n : Int))

/-- Startup of server.py line 27: port = int(os.getenv("PORT", "8081")).
The argument is the value of the PORT environment variable (none when it is
unset); the result is the port HTTPServer is constructed with, or none when
int() raises ValueError, in which case the process dies before binding. -/
def startup_port (envPORT : Option String) : Option Int :=
  python_int (envPORT.getD "8081")

/-- Civil calendar date (year, month, day) from days since 1970-01-01,
the standard era-based conversion used to embed time.gmtime. -/
def civil_from_days (z : Nat) : Nat × Nat × Nat :=
  let z2 := z + 719468
  let era := z2 / 146097
  let doe := z2 % 146097
  let yoe := (doe - doe / 1460 + doe / 36524 - doe / 146096) / 365
  let y := yoe + era * 400
  let doy := doe - (365 * yoe + yoe / 4 - yoe / 100)
  let mp := (5 * doy + 2) / 153
  let d := doy - (153 * mp + 2) / 5 + 1
  let m := if mp < 10 then mp + 3 else mp - 9
  (if m ≤ 2 then y + 1 else y, m, d)

/-- Weekday abbreviations, index 0 = Monday, as in BaseHTTPRequestHandler. -/
def weekdayname : List String := ["Mon", "Tue", "Wed", "Thu", "Fri", "Sat", "Sun"]

/-- Month abbreviations, 1-based as in BaseHTTPRequestHandler.monthname. -/
def monthname : List String :=
  ["", "Jan", "Feb", "Mar", "Apr", "May", "Jun",
   "Jul", "Aug", "Sep", "Oct", "Nov", "Dec"]

/-- Zero-padded two-digit field, the %02d of email.utils.formatdate. -/
def zfill2 (n : Nat) : String := if n < 10 then "0" ++ natStr n else natStr n

/-- Zero-padded four-digit field, the %04d of email.utils.formatdate. -/
def zfill4 (n : Nat) : String :=
  if n < 10 then "000" ++ natStr n
  else if n < 100 then "00" ++ natStr n
  else if n < 1000 then "0" ++ natStr n
  else natStr n

/-- BaseHTTPRequestHandler.date_time_string: email.utils.formatdate of the
current time with usegmt, for example "Thu, 01 Jan 1970 00:00:00 GMT".
The argument is the current time in whole seconds since the Unix epoch. -/
def date_time_string (now : Nat) : String :=
  let days := now / 86400
  let secs := now % 86400
  let ymd := civil_from_days days
  (weekdayname.getD ((days + 3) % 7) "") ++ ", " ++
    zfill2 ymd.2.2 ++ " " ++ (monthname.getD ymd.2.1 "") ++ " " ++ zfill4 ymd.1 ++
    " " ++ zfill2 (secs / 3600) ++ ":" ++ zfill2 (secs % 3600 / 60) ++ ":" ++
    zfill2 (secs % 60) ++ " GMT"

/-- BaseHTTPRequestHandler.version_string: server_version, a space and the
interpreter-dependent sys_version (for example "Python/3.11.6"), which the
embedding keeps as a parameter. -/
def version_string (sys_version : String) : String :=
  "BaseHTTP/0.6 " ++ sys_version

/-- html.escape with quote set to False: ampersand, less-than and
greater-than are replaced by their entities; quotes are left alone. -/
def html_escape (s : String) : String :=
  s.data.foldl
    (fun acc c =>
      if c = '&' then acc ++ "&amp;"
      else if c = '<' then acc ++ "&lt;"
      else if c = '>' then acc ++ "&gt;"
      else acc.push c)
    ""

/-- Lowercase hexadecimal digit character for a value below 16. -/
def hexDigitChar (n : Nat) : Char :=
  if n < 10 then Char.ofNat (48 + n) else Char.ofNat (87 + n % 16)

/-- Four lowercase hexadecimal digits, the %04x inside a JSON \u escape. -/
def hex4 (n : Nat) : String :=
  String.mk [hexDigitChar (n / 4096 % 16), hexDigitChar (n / 256 % 16),
             hexDigitChar (n / 16 % 16), hexDigitChar (n % 16)]

/-- Escaping of one character by json.dumps with its default ensure_ascii:
backslash, quote and the named control escapes specially, printable ASCII
verbatim, everything else as \u escapes with surrogate pairs above BMP. -/
def py_json_escape_char (c : Char) : String :=
  if c = '\\' then "\\\\"
  else if c = '"' then "\\\""
  else if c = '\x08' then "\\b"
  else if c = '\x0c' then "\\f"
  else if c = '\n' then "\\n"
  else if c = '\r' then "\\r"
  else if c = '\t' then "\\t"
  else if 0x20 ≤ c.toNat ∧ c.toNat ≤ 0x7e then String.singleton c
  else if c.toNat < 0x10000 then "\\u" ++ hex4 c.toNat
  else
    "\\u" ++ hex4 (0xd800 + (c.toNat - 0x10000) / 0x400) ++
      "\\u" ++ hex4 (0xdc00 + (c.toNat - 0x10000) % 0x400)

/-- Serialization of a Python str by json.dumps: quoted and escaped. -/
def py_json_quote (s : String) : String :=
  "\"" ++ String.join (s.data.map py_json_escape_char) ++ "\""

/-- json.dumps restricted to the argument shape of both call sites in
server.py: a dict with string keys and string values.  Default separators
(comma-space and colon-space) as dumps uses without indent. -/
def json_dumps_strobj (kvs : List (String × String)) : String :=
  "\x7b" ++
    String.intercalate ", "
      (kvs.map (fun kv => py_json_quote kv.1 ++ ": " ++ py_json_quote kv.2)) ++
    "\x7d"

/-- JSON values, the codomain of the deserializer used to state the
"body deserializes to" and "body is valid JSON" properties. -/
inductive Json where
  | null : Json
  | bool : Bool → Json
  | num : Int → Json
  | str : String → Json
  | arr : List Json → Json
  | obj : List (String × Json) → Json

/-- Whitespace characters of the JSON grammar (space, tab, newline, return). -/
def jsonWs (c : Char) : Bool :=
  c == ' ' || c == '\t' || c == '\n' || c == '\r'

/-- Drop leading JSON whitespace. -/
def skipWs : List Char → List Char
  | [] => []
  | c :: rest => if jsonWs c then skipWs rest else c :: rest

/-- Value of a hexadecimal digit character, if it is one. -/
def hexVal? (c : Char) : Option Nat :=
  if '0' ≤ c ∧ c ≤ '9' then some (c.toNat - 48)
  else if 'a' ≤ c ∧ c ≤ 'f' then some (c.toNat - 87)
  else if 'A' ≤ c ∧ c ≤ 'F' then some (c.toNat - 55)
  else none

/-- Body of a JSON string after its opening quote: plain characters, the
named escapes and \u escapes (code units taken directly, without pairing
surrogates).  Returns the decoded string and the rest of the input. -/
def parseStrRest (acc : List Char) : List Char → Option (String × List Char)
  | [] => none
  | c :: rest =>
    if c = '"' then some (String.mk acc.reverse, rest)
    else if c = '\\' then
      match rest with
      | [] => none
      | e :: rest2 =>
        if e = '"' then parseStrRest ('"' :: acc) rest2
        else if e = '\\' then parseStrRest ('\\' :: acc) rest2
        else if e = '/' then parseStrRest ('/' :: acc) rest2
        else if e = 'b' then parseStrRest ('\x08' :: acc) rest2
        else if e = 'f' then parseStrRest ('\x0c' :: acc) rest2
        else if e = 'n' then parseStrRest ('\n' :: acc) rest2
        else if e = 'r' then parseStrRest ('\r' :: acc) rest2
        else if e = 't' then parseStrRest ('\t' :: acc) rest2
        else if e = 'u' then
          match rest2 with
          | h1 :: h2 :: h3 :: h4 :: rest3 =>
            match hexVal? h1, hexVal? h2, hexVal? h3, hexVal? h4 with
            | some a, some b, some c2, some d =>
              parseStrRest (Char.ofNat (4096 * a + 256 * b + 16 * c2 + d) :: acc) rest3
            | _, _, _, _ => none
          | _ => none
        else none
    else if c.toNat < 0x20 then none
    else parseStrRest (c :: acc) rest

/-- Greedy decimal digit run with its value. -/
def digitsToNat (acc : Nat) : List Char → Nat × List Char
  | [] => (acc, [])
  | c :: rest =>
    if c.isDigit then digitsToNat (10 * acc + (c.toNat - 48)) rest
    else (acc, c :: rest)

/-- Unsigned JSON integer: a lone zero, or a nonzero digit followed by
digits (leading zeros rejected, as the JSON grammar requires). -/
def parseNat : List Char → Option (Nat × List Char)
  | [] => none
  | c :: rest =>
    if c = '0' then some (0, rest)
    else if c.isDigit then some (digitsToNat (c.toNat - 48) rest)
    else none

mutual

/-- Fueled recursive-descent JSON value decoder on a whitespace-skipped
input.  Numbers are restricted to integers (a fraction or exponent part is
not consumed, making such documents come out invalid); this restriction is
irrelevant here because every body this development feeds to the decoder is
either an object of strings or an HTML page. -/
def parseValue : Nat → List Char → Option (Json × List Char)
  | 0, _ => none
  | _, [] => none
  | fuel + 1, c :: rest =>
    if c = '"' then (parseStrRest [] rest).map (fun p => (Json.str p.1, p.2))
    else if c = 't' then
      match rest with
      | 'r' :: 'u' :: 'e' :: rest2 => some (Json.bool true, rest2)
      | _ => none
    else if c = 'f' then
      match rest with
      | 'a' :: 'l' :: 's' :: 'e' :: rest2 => some (Json.bool false, rest2)
      | _ => none
    else if c = 'n' then
      match rest with
      | 'u' :: 'l' :: 'l' :: rest2 => some (Json.null, rest2)
      | _ => none
    else if c = '-' then (parseNat rest).map (fun p => (Json.num (-(p.1 : Int)), p.2))
    else if c.isDigit then
      (parseNat (c :: rest)).map (fun p => (Json.num (p.1 : Int), p.2))
    else if c = '[' then
      match skipWs rest with
      | ']' :: rest2 => some (Json.arr [], rest2)
      | cs2 => parseArrLoop fuel [] cs2
    else if c = '\x7b' then
      match skipWs rest with
      | '\x7d' :: rest2 => some (Json.obj [], rest2)
      | cs2 => parseObjLoop fuel [] cs2
    else none

/-- Comma-separated array elements up to the closing bracket. -/
def parseArrLoop : Nat → List Json → List Char → Option (Json × List Char)
  | 0, _, _ => none
  | fuel + 1, acc, cs =>
    match parseValue fuel (skipWs cs) with
    | none => none
    | some (v, rest) =>
      match skipWs rest with
      | ',' :: rest2 => parseArrLoop fuel (v :: acc) rest2
      | ']' :: rest2 => some (Json.arr (v :: acc).reverse, rest2)
      | _ => none

/-- Comma-separated object members up to the closing brace. -/
def parseObjLoop : Nat → List (String × Json) → List Char → Option (Json × List Char)
  | 0, _, _ => none
  | fuel + 1, acc, cs =>
    match skipWs cs with
    | '"' :: rest =>
      match parseStrRest [] rest with
      | none => none
      | some (k, rest2) =>
        match skipWs rest2 with
        | ':' :: rest3 =>
          match parseValue fuel (skipWs rest3) with
          | none => none
          | some (v, rest4) =>
            match skipWs rest4 with
            | ',' :: rest5 => parseObjLoop fuel ((k, v) :: acc) rest5
            | '\x7d' :: rest5 => some (Json.obj ((k, v) :: acc).reverse, rest5)
            | _ => none
        | _ => none
    | _ => none

end

/-- Deserialization of a whole JSON document: one value surrounded by
optional whitespace and nothing else; none means the text is not valid
JSON (up to the integer-number restriction noted at parseValue). -/
def json_loads (s : String) : Option Json :=
  match parseValue (2 * s.data.length + 2) (skipWs s.data) with
  | some (v, rest) => if skipWs rest = [] then some v else none
  | none => none

/-- Request as the application sees it after transport parsing: the command
(method) and the request target stored in self.path. -/
structure Request where
  method : String
  path : String
deriving Repr, DecidableEq

/-- Response as written to the connection: status line pieces, the headers
in emission order, and the body bytes (as a UTF-8 string). -/
structure HttpResponse where
  status : Nat
  statusMessage : String
  headers : List (String × String)
  body : String
deriving Repr, DecidableEq

/-- Lookup of the first header with the given name. -/
def HttpResponse.header? (r : HttpResponse) (k : String) : Option String :=
  (r.headers.find? (fun kv => kv.1 == k)).map Prod.snd

/-- Response with its Date header removed, to compare responses produced
at different times. -/
def HttpResponse.dropDate (r : HttpResponse) : HttpResponse :=
  { r with headers := r.headers.filter (fun kv => !(kv.1 == "Date")) }

/-- Handler.log_message (server.py lines 22-23): overrides the base-class
logger and returns immediately, so the list of emitted log lines is empty.
The base-class version would have written one line to stderr. -/
def Handler.log_message (format : String) (args : List String) : List String :=
  []

/-- BaseHTTPRequestHandler.log_request, called by send_response; it
delegates to log_message, which the Handler overrides. -/
def log_request (requestline : String) (code : Nat) : List String :=
  Handler.log_message "\"%s\" %s %s" [requestline, natStr code, "-"]

/-- BaseHTTPRequestHandler.log_error, called by send_error; it delegates
to log_message, which the Handler overrides. -/
def log_error (format : String) (args : List String) : List String :=
  Handler.log_message format args

/-- BaseHTTPRequestHandler.responses restricted to the status codes this
program can send (200 and 404 from the handler, 501 from the base-class
dispatch); the pair is the short message and the long explanation. -/
def responses (code : Nat) : Option (String × String) :=
  if code = 200 then some ("OK", "Request fulfilled, document follows")
  else if code = 404 then some ("Not Found", "Nothing matches the given URI")
  else if code = 501 then
    some ("Not Implemented", "Server does not support this operation")
  else none

/-- DEFAULT_ERROR_CONTENT_TYPE of http.server. -/
def error_content_type : String := "text/html;charset=utf-8"

/-- DEFAULT_ERROR_MESSAGE of http.server, instantiated with code, escaped
message and escaped explanation. -/
def default_error_message (code : Nat) (message explain : String) : String :=
  "<!DOCTYPE HTML>\n<html lang=\"en\">\n    <head>\n        <meta charset=\"utf-8\">\n        <title>Error response</title>\n    </head>\n    <body>\n        <h1>Error response</h1>\n        <p>Error code: " ++
    natStr code ++ "</p>\n        <p>Message: " ++ message ++
    ".</p>\n        <p>Error code explanation: " ++ natStr code ++ " - " ++
    explain ++ ".</p>\n    </body>\n</html>\n"

/-- BaseHTTPRequestHandler.send_error as reachable from this program: the
explanation defaults from the responses table, the error is logged (the
override swallows it), send_response emits the status line plus Server and
Date headers and logs the request (swallowed), then Connection close and,
for codes with a body, the HTML error page with its Content-Type and
Content-Length; a HEAD command suppresses writing the body itself. -/
def Handler.send_error (sys_version : String) (now : Nat) (command : String)
    (code : Nat) (message : String) : HttpResponse × List String :=
  let explain := ((responses code).map Prod.snd).getD "???"
  let logs := log_error "code %d, message %s" [natStr code, message] ++
    log_request (command ++ " ...") code
  let content := default_error_message code (html_escape message) (html_escape explain)
  if 200 ≤ code ∧ code ≠ 204 ∧ code ≠ 205 ∧ code ≠ 304 then
    ({ status := code,
       statusMessage := message,
       headers := [("Server", version_string sys_version),
                   ("Date", date_time_string now),
                   ("Connection", "close"),
                   ("Content-Type", error_content_type),
                   ("Content-Length", natStr content.utf8ByteSize)],
       body := if command = "HEAD" then "" else content },
     logs)
  else
    ({ status := code,
       statusMessage := message,
       headers := [("Server", version_string sys_version),
                   ("Date", date_time_string now),
                   ("Connection", "close")],
       body := "" },
     logs)

/-- Handler._send_json (server.py lines 7-13): serialize the payload,
send the status line (send_response also adds the Server and Date headers
and calls the swallowed logger), then Content-Type application/json and
Content-Length of the body bytes, then the body. -/
def Handler._send_json (sys_version : String) (now : Nat) (status_code : Nat)
    (payload : List (String × String)) : HttpResponse × List String :=
  let body := json_dumps_strobj payload
  ({ status := status_code,
     statusMessage := ((responses status_code).map Prod.fst).getD "",
     headers := [("Server", version_string sys_version),
                 ("Date", date_time_string now),
                 ("Content-Type", "application/json"),
                 ("Content-Length", natStr body.utf8ByteSize)],
     body := body },
   log_request ("GET " ++ "...") status_code)

/-- Handler.do_GET (server.py lines 15-20): exact match of self.path
against "/health" picks the 200 body, everything else the 404 body. -/
def Handler.do_GET (sys_version : String) (now : Nat) (path : String) :
    HttpResponse × List String :=
  if path = "/health" then
    Handler._send_json sys_version now 200 [("status", "ok")]
  else
    Handler._send_json sys_version now 404 [("error", "not_found")]

/-- BaseHTTPRequestHandler.handle_one_request after a successful parse:
the method name selects a do_ attribute; the Handler defines only do_GET,
so any other command is answered by send_error 501 with the message
"Unsupported method" around the percent-r rendering of the command. -/
def Handler.handle_one_request (sys_version : String) (now : Nat)
    (req : Request) : HttpResponse × List String :=
  if req.method = "GET" then
    Handler.do_GET sys_version now req.path
  else
    Handler.send_error sys_version now req.method 501
      ("Unsupported method (\x27" ++ req.method ++ "\x27)")

/-- Target normalization in BaseHTTPRequestHandler.parse_request: a target
starting with two slashes is collapsed to a single leading slash before it
is stored in self.path. -/
def collapse_double_slash (target : String) : String :=
  if target.data.take 2 = ['/', '/'] then
    String.mk ('/' :: target.data.dropWhile (fun c => c == '/'))
  else target

/-- Whole-server behaviour on one successfully parsed HTTP/1.x request:
the normalized target becomes self.path and the request is dispatched.
The first component is the response written to the client, the second the
access-log lines emitted while handling it. -/
def serve (sys_version : String) (now : Nat) (method target : String) :
    HttpResponse × List String :=
  Handler.handle_one_request sys_version now
    { method := method, path := collapse_double_slash target }

/-- Appending strings appends their character data. -/
theorem data_of_append (s t : String) : (s ++ t).data = s.data ++ t.data := by
  cases s
  cases t
  rfl

/-- No JSON value starts with a less-than sign. -/
theorem parseValue_head_lt (fuel : Nat) (cs : List Char) :
    parseValue fuel ('<' :: cs) = none := by
  cases fuel with
  | zero => rfl
  | succ n => rfl

/-- A text whose first character is a less-than sign is not valid JSON. -/
theorem json_loads_head_lt (s : String) (cs : List Char)
    (h : s.data = '<' :: cs) : json_loads s = none := by
  unfold json_loads
  rw [h]
  rw [show skipWs ('<' :: cs) = '<' :: cs from rfl]
  rw [parseValue_head_lt]

/-- The HTML error page starts with a less-than sign. -/
theorem default_error_message_head (code : Nat) (msg ex : String) :
    ∃ cs, (default_error_message code msg ex).data = '<' :: cs := by
  unfold default_error_message
  simp only [data_of_append]
  exact ⟨_, rfl⟩

/-- The HTML error page is not valid JSON. -/
theorem json_loads_error_page (code : Nat) (msg ex : String) :
    json_loads (default_error_message code msg ex) = none := by
  obtain ⟨cs, hcs⟩ := default_error_message_head code msg ex
  exact json_loads_head_lt _ cs hcs

/-- Dispatch of a GET request: do_GET on the normalized target. -/
theorem serve_get (sv : String) (t : Nat) (target : String) :
    serve sv t "GET" target =
      Handler.do_GET sv t (collapse_double_slash target) := rfl

/-- Dispatch of a non-GET request: the base-class 501 error. -/
theorem serve_non_get (sv : String) (t : Nat) (m target : String)
    (h : m ≠ "GET") :
    serve sv t m target =
      Handler.send_error sv t m 501
        ("Unsupported method (\x27" ++ m ++ "\x27)") := by
  unfold serve Handler.handle_one_request
  exact if_neg h

/-- Target normalization leaves a target alone unless it starts with two
slashes. -/
theorem collapse_of_take2 (target : String)
    (h : ¬(target.data.take 2 = ['/', '/'])) :
    collapse_double_slash target = target := by
  unfold collapse_double_slash
  exact if_neg h

/-- C1: for every request with method GET and path exactly "/health", the
server responds with status 200 and a body that deserializes to the JSON
object with the single key "status" bound to the string "ok". -/
theorem get_health_ok (sv : String) (t : Nat) :
    (serve sv t "GET" "/health").1.status = 200 ∧
    json_loads (serve sv t "GET" "/health").1.body =
      some (Json.obj [("status", Json.str "ok")]) :=
  ⟨rfl, rfl⟩

/-- C2 counterexample: a POST to /health is answered with status 501, not
the 404 the claim asserts for every non-GET request. -/
theorem post_health_not_404 :
    (serve "Python/3.11.6" 0 "POST" "/health").1.status ≠ 404 := by decide

/-- C2 amended: for every request whose method is not GET, the base
request-handling layer answers 501 Not Implemented with an HTML error page
(Content-Type text/html;charset=utf-8) whose body is not valid JSON. -/
theorem non_get_answered_501_html (sv : String) (t : Nat) (m p : String)
    (h : m ≠ "GET") :
    (serve sv t m p).1.status = 501 ∧
    (serve sv t m p).1.header? "Content-Type" =
      some "text/html;charset=utf-8" ∧
    json_loads (serve sv t m p).1.body = none := by
  rw [serve_non_get sv t m p h]
  refine ⟨rfl, rfl, ?_⟩
  by_cases hh : m = "HEAD"
  · rw [show (Handler.send_error sv t m 501
        ("Unsupported method (\x27" ++ m ++ "\x27)")).1.body =
        (if m = "HEAD" then ""
         else default_error_message 501
           (html_escape ("Unsupported method (\x27" ++ m ++ "\x27)"))
           (html_escape "Server does not support this operation")) from rfl]
    rw [if_pos hh]
    rfl
  · rw [show (Handler.send_error sv t m 501
        ("Unsupported method (\x27" ++ m ++ "\x27)")).1.body =
        (if m = "HEAD" then ""
         else default_error_message 501
           (html_escape ("Unsupported method (\x27" ++ m ++ "\x27)"))
           (html_escape "Server does not support this operation")) from rfl]
    rw [if_neg hh]
    exact json_loads_error_page 501 _ _

/-- C2 amended, witness at POST /health. -/
theorem non_get_answered_501_html_witness :
    (serve "Python/3.11.6" 0 "POST" "/health").1.status = 501 ∧
    (serve "Python/3.11.6" 0 "POST" "/health").1.header? "Content-Type" =
      some "text/html;charset=utf-8" ∧
    json_loads (serve "Python/3.11.6" 0 "POST" "/health").1.body = none :=
  non_get_answered_501_html "Python/3.11.6" 0 "POST" "/health" (by decide)

/-- C3: for every request with method GET and a path other than "/health",
the handler responds with status 404 and a body that deserializes to the
JSON object with the single key "error" bound to the string "not_found". -/
theorem get_other_path_404 (sv : String) (t : Nat) (p : String)
    (h : p ≠ "/health") :
    (Handler.do_GET sv t p).1.status = 404 ∧
    json_loads (Handler.do_GET sv t p).1.body =
      some (Json.obj [("error", Json.str "not_found")]) := by
  unfold Handler.do_GET
  rw [if_neg h]
  exact ⟨rfl, rfl⟩

/-- C3 witness at GET of the root path. -/
theorem get_other_path_404_witness :
    (Handler.do_GET "Python/3.11.6" 0 "/").1.status = 404 ∧
    json_loads (Handler.do_GET "Python/3.11.6" 0 "/").1.body =
      some (Json.obj [("error", Json.str "not_found")]) :=
  get_other_path_404 "Python/3.11.6" 0 "/" (by decide)

/-- C4 counterexample: the response to a POST does not carry Content-Type
application/json, refuting the claim for every response. -/
theorem post_content_type_not_json :
    (serve "Python/3.11.6" 0 "POST" "/health").1.header? "Content-Type" ≠
      some "application/json" := by decide

/-- C4 amended: every response to a non-HEAD request carries a
Content-Length header equal to the byte length of its body, and every
response to a GET request carries Content-Type application/json.  (A HEAD
request gets the 501 error headers while the body itself is suppressed, so
there Content-Length describes the suppressed HTML page instead.) -/
theorem content_headers_amended (sv : String) (t : Nat) (m target : String)
    (h : m ≠ "HEAD") :
    (serve sv t m target).1.header? "Content-Length" =
      some (natStr (serve sv t m target).1.body.utf8ByteSize) ∧
    (m = "GET" →
      (serve sv t m target).1.header? "Content-Type" =
        some "application/json") := by
  by_cases hg : m = "GET"
  · subst hg
    rw [serve_get sv t target]
    unfold Handler.do_GET
    by_cases hp : collapse_double_slash target = "/health"
    · rw [if_pos hp]
      exact ⟨rfl, fun _ => rfl⟩
    · rw [if_neg hp]
      exact ⟨rfl, fun _ => rfl⟩
  · rw [serve_non_get sv t m target hg]
    refine ⟨?_, fun hcontra => absurd hcontra hg⟩
    rw [show (Handler.send_error sv t m 501
        ("Unsupported method (\x27" ++ m ++ "\x27)")).1.body =
        (if m = "HEAD" then ""
         else default_error_message 501
           (html_escape ("Unsupported method (\x27" ++ m ++ "\x27)"))
           (html_escape "Server does not support this operation")) from rfl]
    rw [if_neg h]
    rfl

/-- C4 amended, witness at GET /health. -/
theorem content_headers_amended_witness :
    (serve "Python/3.11.6" 0 "GET" "/health").1.header? "Content-Length" =
      some (natStr
        (serve "Python/3.11.6" 0 "GET" "/health").1.body.utf8ByteSize) ∧
    ("GET" = "GET" →
      (serve "Python/3.11.6" 0 "GET" "/health").1.header? "Content-Type" =
        some "application/json") :=
  content_headers_amended "Python/3.11.6" 0 "GET" "/health" (by decide)

/-- C5 counterexample: the body answered to a POST (an HTML error page) is
not valid JSON, refuting the claim for every parsed request. -/
theorem post_body_not_json :
    json_loads (serve "Python/3.11.6" 0 "POST" "/health").1.body = none :=
  json_loads_head_lt _ _ rfl

/-- C5 amended: for every GET request the response body is valid JSON
(it deserializes to some JSON value); non-GET requests instead receive the
HTML 501 error page of the base layer, which is not JSON. -/
theorem get_body_valid_json (sv : String) (t : Nat) (target : String) :
    ∃ v, json_loads (serve sv t "GET" target).1.body = some v := by
  rw [serve_get sv t target]
  unfold Handler.do_GET
  by_cases hp : collapse_double_slash target = "/health"
  · rw [if_pos hp]
    exact ⟨Json.obj [("status", Json.str "ok")], rfl⟩
  · rw [if_neg hp]
    exact ⟨Json.obj [("error", Json.str "not_found")], rfl⟩

/-- C6: when the PORT environment variable is set to a value int() cannot
parse, startup fails (no port is bound) and in particular does not fall
back to the default port 8081. -/
theorem unparsable_port_fails (v : String) (h : python_int v = none) :
    startup_port (some v) = none ∧ startup_port (some v) ≠ some 8081 := by
  have hs : startup_port (some v) = python_int v := rfl
  rw [hs, h]
  exact ⟨rfl, by decide⟩

/-- C6 witness at PORT set to "abc". -/
theorem unparsable_port_fails_witness :
    startup_port (some "abc") = none ∧
    startup_port (some "abc") ≠ some 8081 :=
  unparsable_port_fails "abc" (by decide)

/-- C7: with PORT unset the server listens on 8081; a numeric PORT value
is parsed by int() and the server listens on exactly that number, as in
the PORT=9999 scenario. -/
theorem port_selection :
    startup_port none = some 8081 ∧
    python_int "9999" = some 9999 ∧
    (∀ v n, python_int v = some n → startup_port (some v) = some n) := by
  refine ⟨by decide, by decide, fun v n h => ?_⟩
  have hs : startup_port (some v) = python_int v := rfl
  rw [hs, h]

/-- C7 witness at PORT set to "9999" and PORT unset. -/
theorem port_selection_witness :
    startup_port (some "9999") = some 9999 ∧ startup_port none = some 8081 :=
  ⟨port_selection.2.2 "9999" 9999 (by decide), port_selection.1⟩

/-- C8 counterexample: the same GET /health request served one second
apart yields responses that are not byte-identical, because send_response
stamps the current time into the Date header. -/
theorem responses_differ_across_time :
    (serve "Python/3.11.6" 0 "GET" "/health").1 ≠
      (serve "Python/3.11.6" 1 "GET" "/health").1 := by decide

/-- Response of _send_json without its Date header: every other field is
independent of the request time. -/
theorem send_json_dropDate (sv : String) (t : Nat) (code : Nat)
    (kvs : List (String × String)) :
    (Handler._send_json sv t code kvs).1.dropDate =
      { status := code,
        statusMessage := ((responses code).map Prod.fst).getD "",
        headers := [("Server", version_string sv),
                    ("Content-Type", "application/json"),
                    ("Content-Length",
                      natStr (json_dumps_strobj kvs).utf8ByteSize)],
        body := json_dumps_strobj kvs } := rfl

/-- Response of the 501 send_error without its Date header: every other
field is independent of the request time. -/
theorem send_error_501_dropDate (sv : String) (t : Nat) (m msg : String) :
    (Handler.send_error sv t m 501 msg).1.dropDate =
      { status := 501,
        statusMessage := msg,
        headers := [("Server", version_string sv),
                    ("Connection", "close"),
                    ("Content-Type", error_content_type),
                    ("Content-Length", natStr (default_error_message 501
                      (html_escape msg)
                      (html_escape
                        "Server does not support this operation")).utf8ByteSize)],
        body := if m = "HEAD" then ""
                else default_error_message 501 (html_escape msg)
                  (html_escape "Server does not support this operation") } :=
  rfl

/-- Log output of _send_json: the swallowed log_request line, nothing. -/
theorem send_json_logs_nil (sv : String) (t : Nat) (code : Nat)
    (kvs : List (String × String)) :
    (Handler._send_json sv t code kvs).2 = [] := rfl

/-- Log output of the 501 send_error: the swallowed log_error and
log_request lines, nothing. -/
theorem send_error_logs_nil (sv : String) (t : Nat) (m msg : String) :
    (Handler.send_error sv t m 501 msg).2 = [] := rfl

/-- C8 amended: the handler is deterministic and stateless given the
request time: two identical requests served at any two times produce
responses that agree on everything except the Date header (same status,
status message, body and remaining headers), and neither emits any log
state; only the time-dependent Date header can differ. -/
theorem stateless_up_to_date (sv : String) (t1 t2 : Nat) (m target : String) :
    (serve sv t1 m target).1.dropDate = (serve sv t2 m target).1.dropDate ∧
    (serve sv t1 m target).2 = (serve sv t2 m target).2 := by
  by_cases hg : m = "GET"
  · subst hg
    rw [serve_get sv t1 target, serve_get sv t2 target]
    unfold Handler.do_GET
    by_cases hp : collapse_double_slash target = "/health"
    · rw [if_pos hp, if_pos hp, send_json_dropDate sv t1, send_json_dropDate sv t2,
        send_json_logs_nil sv t1, send_json_logs_nil sv t2]
      exact ⟨rfl, rfl⟩
    · rw [if_neg hp, if_neg hp, send_json_dropDate sv t1, send_json_dropDate sv t2,
        send_json_logs_nil sv t1, send_json_logs_nil sv t2]
      exact ⟨rfl, rfl⟩
  · rw [serve_non_get sv t1 m target hg, serve_non_get sv t2 m target hg,
      send_error_501_dropDate sv t1, send_error_501_dropDate sv t2,
      send_error_logs_nil sv t1, send_error_logs_nil sv t2]
    exact ⟨rfl, rfl⟩

/-- C9: handling any request emits no access-log lines: the log_message
override swallows both the per-request line of log_request and the error
line of log_error. -/
theorem no_access_log_lines (sv : String) (t : Nat) (m target : String) :
    (serve sv t m target).2 = [] := by
  by_cases hg : m = "GET"
  · subst hg
    rw [serve_get sv t target]
    unfold Handler.do_GET
    by_cases hp : collapse_double_slash target = "/health"
    · rw [if_pos hp, send_json_logs_nil]
    · rw [if_neg hp, send_json_logs_nil]
  · rw [serve_non_get sv t m target hg, send_error_logs_nil]

/-- C10: path matching is exact on the full request target: a GET whose
target is "/health" followed by any nonempty suffix (a query string, a
trailing slash, more path) is answered 404 with the not_found body. -/
theorem health_suffix_404 (sv : String) (t : Nat) (s : String)
    (h : s ≠ "") :
    (serve sv t "GET" ("/health" ++ s)).1.status = 404 ∧
    json_loads (serve sv t "GET" ("/health" ++ s)).1.body =
      some (Json.obj [("error", Json.str "not_found")]) := by
  have hdata : ("/health" ++ s).data =
      '/' :: 'h' :: 'e' :: 'a' :: 'l' :: 't' :: 'h' :: s.data := by
    rw [data_of_append]
    rfl
  have hcond : ¬(("/health" ++ s).data.take 2 = ['/', '/']) := by
    rw [hdata]
    intro hcontra
    have h2 : (['/', 'h'] : List Char) = ['/', '/'] := hcontra
    exact absurd h2 (by decide)
  have hcol := collapse_of_take2 _ hcond
  have hne : "/health" ++ s ≠ "/health" := by
    intro hcontra
    have hlen := congrArg (fun q => q.data.length) hcontra
    simp only [data_of_append, List.length_append] at hlen
    have h7 : ("/health".data).length = 7 := rfl
    rw [h7] at hlen
    have hz : s.data.length = 0 := by omega
    have hnil : s.data = [] := List.eq_nil_of_length_eq_zero hz
    apply h
    cases s with
    | mk d =>
      cases hnil
      rfl
  rw [serve_get sv t ("/health" ++ s), hcol]
  unfold Handler.do_GET
  rw [if_neg hne]
  exact ⟨rfl, rfl⟩

/-- C10 witness at the query-string target and at the trailing-slash
target from the spec scenarios. -/
theorem health_suffix_404_witness :
    ((serve "Python/3.11.6" 0 "GET" ("/health" ++ "?x=1")).1.status = 404 ∧
      json_loads (serve "Python/3.11.6" 0 "GET" ("/health" ++ "?x=1")).1.body =
        some (Json.obj [("error", Json.str "not_found")])) ∧
    ((serve "Python/3.11.6" 0 "GET" ("/health" ++ "/")).1.status = 404 ∧
      json_loads (serve "Python/3.11.6" 0 "GET" ("/health" ++ "/")).1.body =
        some (Json.obj [("error", Json.str "not_found")])) :=
  ⟨health_suffix_404 "Python/3.11.6" 0 "?x=1" (by decide),
    health_suffix_404 "Python/3.11.6" 0 "/" (by decide)⟩
